import Mathlib

/-!
Verification of the Panasonic IR protocol implementation (`ir_Panasonic.cpp`):
the 48-bit single-word codec (`encodePanasonic` / `decodePanasonic`), the
air-conditioner state model (`IRPanasonicAc`), and the framed A/C decoder
(`decodePanasonicAC`).

Machine integers are modelled as `Nat`; the C code's values all stay within
their machine types on the paths modelled here, and explicit `% 2^w` / `&&&`
masks appear exactly where the C code truncates.  The raw capture buffer
`results->rawbuf` is a `List Nat` (durations in raw ticks) and the A/C state
buffer is a `List Nat` of length `kPanasonicAcStateLength` with byte values.
-/

namespace IRPanasonic

/-! ## Wire timing constants (`ir_Panasonic.cpp` lines 37-60) -/

def kPanasonicTick : Nat := 432

def kPanasonicHdrMarkTicks : Nat := 8

def kPanasonicHdrMark : Nat := kPanasonicHdrMarkTicks * kPanasonicTick

def kPanasonicHdrSpaceTicks : Nat := 4

def kPanasonicHdrSpace : Nat := kPanasonicHdrSpaceTicks * kPanasonicTick

def kPanasonicBitMarkTicks : Nat := 1

def kPanasonicBitMark : Nat := kPanasonicBitMarkTicks * kPanasonicTick

def kPanasonicOneSpaceTicks : Nat := 3

def kPanasonicOneSpace : Nat := kPanasonicOneSpaceTicks * kPanasonicTick

def kPanasonicZeroSpaceTicks : Nat := 1

def kPanasonicZeroSpace : Nat := kPanasonicZeroSpaceTicks * kPanasonicTick

def kPanasonicEndGap : Nat := 5000

def kPanasonicAcSectionGap : Nat := 10000

def kPanasonicAcSection1Length : Nat := 8

def kPanasonicAcMessageGap : Nat := 100000

/-- Modelled from the spec: the protocol's fixed single-word width
(`kPanasonicBits`, declared in the library headers, not under `src/`); the
spec describes a 48-bit command (16-bit address + 32-bit payload). -/
def kPanasonicBits : Nat := 48

/-- Modelled from the spec: the framed A/C protocol's fixed bit width
(`kPanasonicAcBits`, declared in the library headers, not under `src/`);
the state buffer holds `kPanasonicAcStateLength` (27) bytes, 216 bits. -/
def kPanasonicAcBits : Nat := 216

/-- Modelled from the spec: number of raw samples in a message header
(`kHeader`, declared in `IRrecv.h`, not under `src/`): one mark and one
space. -/
def kHeader : Nat := 2

/-- Modelled from the spec: number of raw samples in a message footer
(`kFooter`, declared in `IRrecv.h`, not under `src/`): one mark and one
trailing gap. -/
def kFooter : Nat := 2

/-- Modelled from the spec: index of the first sample of a capture
(`kStartOffset`, declared in `IRrecv.h`, not under `src/`); entry 0 of the
raw buffer is the gap preceding the message. -/
def kStartOffset : Nat := 1

/-- Modelled from the spec: microseconds per raw-buffer tick (`kRawTick`,
declared in `IRrecv.h`, not under `src/`); each stored duration is
multiplied by this before being compared with an expected duration in
microseconds. -/
def kRawTick : Nat := 2

/-- Modelled from the spec: the default timing-match tolerance percentage
(`kTolerance`, declared in `IRrecv.h`, not under `src/`). -/
def kTolerance : Nat := 25

/-- Modelled from the spec: the default extra duration allowed on a mark
and removed from a space (`kMarkExcess`, declared in `IRrecv.h`, not under
`src/`). -/
def kMarkExcess : Nat := 50

/-- Modelled from the spec: the wider tolerance percentage used by the
framed A/C decoder (`kPanasonicAcTolerance`, declared in the library
headers, not under `src/`). -/
def kPanasonicAcTolerance : Nat := 40

/-- Modelled from the spec: the excess-duration allowance used by the
framed A/C decoder (`kPanasonicAcExcess`, declared in the library headers,
not under `src/`). -/
def kPanasonicAcExcess : Nat := 0

/-! ## Timing-match primitives

The generic pulse-timing match primitives live in `IRrecv.cpp`, which is not
under `src/`; the spec treats them as external collaborators that compare an
individual duration against a template within a tolerance. -/

/-- Modelled from the spec: lower bound of the tolerance window around a
desired duration (`IRrecv::ticksLow`, not under `src/`). -/
def ticksLow (usecs tolerance : Nat) : Nat := usecs * (100 - tolerance) / 100

/-- Modelled from the spec: upper bound of the tolerance window around a
desired duration (`IRrecv::ticksHigh`, not under `src/`). -/
def ticksHigh (usecs tolerance : Nat) : Nat := usecs * (100 + tolerance) / 100 + 1

/-- Modelled from the spec: tolerance-window comparison of a measured raw
duration against a desired duration in microseconds (`IRrecv::match`, not
under `src/`). -/
def match' (measured desired tolerance : Nat) : Bool :=
  decide (ticksLow desired tolerance ≤ measured * kRawTick ∧
          measured * kRawTick ≤ ticksHigh desired tolerance)

/-- Modelled from the spec: mark comparison, allowing the mark to run a
little long (`IRrecv::matchMark`, not under `src/`). -/
def matchMark (measured desired tolerance excess : Nat) : Bool :=
  match' measured (desired + excess) tolerance

/-- Modelled from the spec: space comparison, shortening the template by the
mark's excess (`IRrecv::matchSpace`, not under `src/`). -/
def matchSpace (measured desired tolerance excess : Nat) : Bool :=
  match' measured (desired - excess) tolerance

/-- Modelled from the spec: at-least comparison used for trailing gaps
(`IRrecv::matchAtLeast`, not under `src/`); a zero duration is the final
space of a capture and is treated as an arbitrarily long gap. -/
def matchAtLeast (measured desired tolerance : Nat) : Bool :=
  decide (measured = 0 ∨ ticksLow desired tolerance ≤ measured * kRawTick)

/-- Modelled from the spec: reversal of the low `nbits` bits of a value
(`reverseBits` in `IRutils.cpp`, not under `src/`); bit significance is
reversed relative to the wire, LSB transmitted first. -/
def reverseBits (input nbits : Nat) : Nat :=
  (List.range nbits).foldl (fun acc i => acc * 2 + (input >>> i) % 2) 0

/-- Result of a data-section match: `IRrecv`'s `match_result_t`. -/
structure MatchResult where
  success : Bool
  data : Nat
  used : Nat
  deriving Repr, DecidableEq

/-- Modelled from the spec: the bit/byte extractor's main loop
(`IRrecv::matchData`, not under `src/`).  Consumes mark/space pairs against
the calibrated one/zero templates, accumulating bits MSB-first; fails on the
first pair matching neither template.  Also returns the list of raw-buffer
indices it read, in order, for the buffer-safety analysis. -/
def matchDataLoop (buf : List Nat) (offset remaining : Nat)
    (onemark onespace zeromark zerospace tolerance excess : Nat)
    (data used : Nat) : MatchResult × List Nat :=
  match remaining with
  | 0 => (⟨true, data, used⟩, [])
  | r + 1 =>
    if ¬ matchMark (buf.getD offset 0) onemark tolerance excess then
      (⟨false, data, used⟩, [offset])
    else if matchSpace (buf.getD (offset + 1) 0) onespace tolerance excess then
      let rec_ := matchDataLoop buf (offset + 2) r onemark onespace zeromark
        zerospace tolerance excess (data * 2 + 1) (used + 2)
      (rec_.1, offset :: (offset + 1) :: rec_.2)
    else if matchSpace (buf.getD (offset + 1) 0) zerospace tolerance excess then
      let rec_ := matchDataLoop buf (offset + 2) r onemark onespace zeromark
        zerospace tolerance excess (data * 2) (used + 2)
      (rec_.1, offset :: (offset + 1) :: rec_.2)
    else
      (⟨false, data, used⟩, [offset, offset + 1])

/-- Modelled from the spec: `IRrecv::matchData` (not under `src/`).  Runs the
extractor loop for `nbits` bits and, when extraction succeeded and the data
was sent least-significant-bit first, reverses the bit order. -/
def matchData (buf : List Nat) (offset nbits : Nat)
    (onemark onespace zeromark zerospace tolerance excess : Nat)
    (msbfirst : Bool) : MatchResult × List Nat :=
  let r := matchDataLoop buf offset nbits onemark onespace zeromark zerospace
    tolerance excess 0 0
  if r.1.success && !msbfirst then
    (⟨r.1.success, reverseBits r.1.data nbits, r.1.used⟩, r.2)
  else r

/-! ## Single-word command codec (`ir_Panasonic.cpp` lines 117-203) -/

/-- Embedding of `IRsend::encodePanasonic` (lines 117-127): builds the raw
64-bit Panasonic message from the manufacturer code and the three payload
bytes, with the trailing checksum byte `device XOR subdevice XOR function`. -/
def encodePanasonic (manufacturer device subdevice function : Nat) : Nat :=
  let checksum := device ^^^ subdevice ^^^ function
  (manufacturer <<< 32) ||| (device <<< 24) ||| (subdevice <<< 16) |||
    (function <<< 8) ||| checksum

/-- Modelled from the spec: the `PANASONIC` member of the protocol-tag
enumeration `decode_type_t` (declared in `IRremoteESP8266.h`, not under
`src/`). -/
def PANASONIC : Nat := 5

/-- Output fields of `decode_results` assigned by `decodePanasonic`
(lines 197-201). -/
structure DecodeResults where
  value : Nat
  address : Nat
  command : Nat
  decode_type : Nat
  bits : Nat
  deriving Repr, DecidableEq

/-- Embedding of `IRrecv::decodePanasonic` (lines 146-203).  The raw capture
buffer and its length are passed as the list `rawbuf`; the output-field
record `results` is returned updated only on the success path. -/
def decodePanasonic (rawbuf : List Nat) (results : DecodeResults)
    (nbits : Nat) (strict : Bool) (manufacturer : Nat) :
    Bool × DecodeResults :=
  if rawbuf.length < 2 * nbits + kHeader + kFooter - 1 then (false, results)
  else if strict ∧ nbits ≠ kPanasonicBits then (false, results)
  else
    let offset := kStartOffset
    if ¬ matchMark (rawbuf.getD offset 0) kPanasonicHdrMark kTolerance
        kMarkExcess then (false, results)
    else
      let m_tick := rawbuf.getD offset 0 * kRawTick / kPanasonicHdrMarkTicks
      let offset := offset + 1
      if ¬ matchSpace (rawbuf.getD offset 0) kPanasonicHdrSpace kTolerance
          kMarkExcess then (false, results)
      else
        let s_tick := rawbuf.getD offset 0 * kRawTick / kPanasonicHdrSpaceTicks
        let offset := offset + 1
        let data_result := (matchData rawbuf offset nbits
          (kPanasonicBitMarkTicks * m_tick) (kPanasonicOneSpaceTicks * s_tick)
          (kPanasonicBitMarkTicks * m_tick) (kPanasonicZeroSpaceTicks * s_tick)
          kTolerance kMarkExcess true).1
        if data_result.success = false then (false, results)
        else
          let data := data_result.data
          let offset := offset + data_result.used
          if ¬ match' (rawbuf.getD offset 0) (kPanasonicBitMarkTicks * m_tick)
              kTolerance then (false, results)
          else
            let offset := offset + 1
            if offset < rawbuf.length ∧
                ¬ matchAtLeast (rawbuf.getD offset 0) kPanasonicEndGap
                  kTolerance then (false, results)
            else
              let address := data >>> 32
              let command := data &&& 0xFFFFFFFF
              if strict ∧ address ≠ manufacturer then (false, results)
              else if strict ∧ data &&& 0xFF ≠
                  ((data >>> 24) ^^^ (data >>> 16) ^^^ (data >>> 8)) &&& 0xFF
                then (false, results)
              else
                (true, ⟨data, address, command, PANASONIC, nbits⟩)

/-- The structural, header, data and footer stages of `decodePanasonic`
(lines 148-181), stated independently of the mode-dependent compliance
stage: yields the extracted word exactly when every one of those stages
passes. -/
def panasonicStages (rawbuf : List Nat) (nbits : Nat) : Option Nat :=
  if rawbuf.length < 2 * nbits + kHeader + kFooter - 1 then none
  else
    let offset := kStartOffset
    if ¬ matchMark (rawbuf.getD offset 0) kPanasonicHdrMark kTolerance
        kMarkExcess then none
    else
      let m_tick := rawbuf.getD offset 0 * kRawTick / kPanasonicHdrMarkTicks
      let offset := offset + 1
      if ¬ matchSpace (rawbuf.getD offset 0) kPanasonicHdrSpace kTolerance
          kMarkExcess then none
      else
        let s_tick := rawbuf.getD offset 0 * kRawTick / kPanasonicHdrSpaceTicks
        let offset := offset + 1
        let data_result := (matchData rawbuf offset nbits
          (kPanasonicBitMarkTicks * m_tick) (kPanasonicOneSpaceTicks * s_tick)
          (kPanasonicBitMarkTicks * m_tick) (kPanasonicZeroSpaceTicks * s_tick)
          kTolerance kMarkExcess true).1
        if data_result.success = false then none
        else
          let data := data_result.data
          let offset := offset + data_result.used
          if ¬ match' (rawbuf.getD offset 0) (kPanasonicBitMarkTicks * m_tick)
              kTolerance then none
          else
            let offset := offset + 1
            if offset < rawbuf.length ∧
                ¬ matchAtLeast (rawbuf.getD offset 0) kPanasonicEndGap
                  kTolerance then none
            else some data

/-! ## Named subterms of `decodePanasonic`, for structured reasoning -/

/-- Header-mark test of `decodePanasonic` (line 157). -/
def panaHdrMarkOk (rawbuf : List Nat) : Bool :=
  matchMark (rawbuf.getD kStartOffset 0) kPanasonicHdrMark kTolerance
    kMarkExcess

/-- Header-space test of `decodePanasonic` (line 161). -/
def panaHdrSpaceOk (rawbuf : List Nat) : Bool :=
  matchSpace (rawbuf.getD (kStartOffset + 1) 0) kPanasonicHdrSpace kTolerance
    kMarkExcess

/-- Mark tick unit calibrated from the header mark (lines 159-160). -/
def panaMTick (rawbuf : List Nat) : Nat :=
  rawbuf.getD kStartOffset 0 * kRawTick / kPanasonicHdrMarkTicks

/-- Space tick unit calibrated from the header space (lines 163-164). -/
def panaSTick (rawbuf : List Nat) : Nat :=
  rawbuf.getD (kStartOffset + 1) 0 * kRawTick / kPanasonicHdrSpaceTicks

/-- Data-section extraction of `decodePanasonic` (lines 167-171). -/
def panaDataRes (rawbuf : List Nat) (nbits : Nat) : MatchResult :=
  (matchData rawbuf (kStartOffset + 2) nbits
    (kPanasonicBitMarkTicks * panaMTick rawbuf)
    (kPanasonicOneSpaceTicks * panaSTick rawbuf)
    (kPanasonicBitMarkTicks * panaMTick rawbuf)
    (kPanasonicZeroSpaceTicks * panaSTick rawbuf)
    kTolerance kMarkExcess true).1

/-- Unfolding lemma for `decodePanasonic` in terms of the named subterms;
holds by definitional unfolding. -/
theorem decodePanasonic_eq (rawbuf : List Nat) (results : DecodeResults)
    (nbits : Nat) (strict : Bool) (manufacturer : Nat) :
    decodePanasonic rawbuf results nbits strict manufacturer =
      if rawbuf.length < 2 * nbits + kHeader + kFooter - 1 then (false, results)
      else if strict ∧ nbits ≠ kPanasonicBits then (false, results)
      else if ¬ panaHdrMarkOk rawbuf then (false, results)
      else if ¬ panaHdrSpaceOk rawbuf then (false, results)
      else if (panaDataRes rawbuf nbits).success = false then (false, results)
      else if ¬ match'
          (rawbuf.getD (kStartOffset + 2 + (panaDataRes rawbuf nbits).used) 0)
          (kPanasonicBitMarkTicks * panaMTick rawbuf) kTolerance then
        (false, results)
      else if kStartOffset + 2 + (panaDataRes rawbuf nbits).used + 1 <
            rawbuf.length ∧
          ¬ matchAtLeast
            (rawbuf.getD
              (kStartOffset + 2 + (panaDataRes rawbuf nbits).used + 1) 0)
            kPanasonicEndGap kTolerance then (false, results)
      else if strict ∧ (panaDataRes rawbuf nbits).data >>> 32 ≠ manufacturer
        then (false, results)
      else if strict ∧ (panaDataRes rawbuf nbits).data &&& 0xFF ≠
          (((panaDataRes rawbuf nbits).data >>> 24) ^^^
            ((panaDataRes rawbuf nbits).data >>> 16) ^^^
            ((panaDataRes rawbuf nbits).data >>> 8)) &&& 0xFF then
        (false, results)
      else
        (true, ⟨(panaDataRes rawbuf nbits).data,
          (panaDataRes rawbuf nbits).data >>> 32,
          (panaDataRes rawbuf nbits).data &&& 0xFFFFFFFF, PANASONIC, nbits⟩) :=
  rfl

/-- Unfolding lemma for `panasonicStages` in terms of the same named
subterms; holds by definitional unfolding. -/
theorem panasonicStages_eq (rawbuf : List Nat) (nbits : Nat) :
    panasonicStages rawbuf nbits =
      if rawbuf.length < 2 * nbits + kHeader + kFooter - 1 then none
      else if ¬ panaHdrMarkOk rawbuf then none
      else if ¬ panaHdrSpaceOk rawbuf then none
      else if (panaDataRes rawbuf nbits).success = false then none
      else if ¬ match'
          (rawbuf.getD (kStartOffset + 2 + (panaDataRes rawbuf nbits).used) 0)
          (kPanasonicBitMarkTicks * panaMTick rawbuf) kTolerance then none
      else if kStartOffset + 2 + (panaDataRes rawbuf nbits).used + 1 <
            rawbuf.length ∧
          ¬ matchAtLeast
            (rawbuf.getD
              (kStartOffset + 2 + (panaDataRes rawbuf nbits).used + 1) 0)
            kPanasonicEndGap kTolerance then none
      else some (panaDataRes rawbuf nbits).data :=
  rfl

/-! ## General helper lemmas -/

theorem ite_none_eq_some {α : Type} {c : Prop} [Decidable c] {x : Option α}
    {a : α} (h : (if c then none else x) = some a) : ¬ c ∧ x = some a := by
  by_cases hc : c
  · rw [if_pos hc] at h; exact absurd h (by simp)
  · rw [if_neg hc] at h; exact ⟨hc, h⟩

theorem lor_shift_add {a b k : Nat} (hb : b < 2 ^ k) :
    a <<< k ||| b = a <<< k + b := by
  rw [Nat.shiftLeft_eq, Nat.mul_comm a (2 ^ k)]
  exact (Nat.mul_add_lt_is_or hb a).symm

theorem encodePanasonic_eq_sum (m d s f : Nat) (hd : d < 2 ^ 8)
    (hs : s < 2 ^ 8) (hf : f < 2 ^ 8) :
    encodePanasonic m d s f =
      m * 2 ^ 32 + d * 2 ^ 24 + s * 2 ^ 16 + f * 2 ^ 8 + (d ^^^ s ^^^ f) := by
  have hc : d ^^^ s ^^^ f < 2 ^ 8 :=
    Nat.xor_lt_two_pow (Nat.xor_lt_two_pow hd hs) hf
  have h8 : f <<< 8 + (d ^^^ s ^^^ f) < 2 ^ 16 := by
    rw [Nat.shiftLeft_eq]; omega
  have h16 : s <<< 16 + (f <<< 8 + (d ^^^ s ^^^ f)) < 2 ^ 24 := by
    rw [Nat.shiftLeft_eq, Nat.shiftLeft_eq]; omega
  have h24 : d <<< 24 + (s <<< 16 + (f <<< 8 + (d ^^^ s ^^^ f))) < 2 ^ 32 := by
    rw [Nat.shiftLeft_eq, Nat.shiftLeft_eq, Nat.shiftLeft_eq]; omega
  unfold encodePanasonic
  rw [Nat.or_assoc, Nat.or_assoc, Nat.or_assoc, lor_shift_add hc,
    lor_shift_add h8, lor_shift_add h16, lor_shift_add h24,
    Nat.shiftLeft_eq, Nat.shiftLeft_eq, Nat.shiftLeft_eq, Nat.shiftLeft_eq]
  omega

/-- C1: for every 16-bit manufacturer `m` and 8-bit `d`, `s`, `f`,
`encodePanasonic` returns `(m<<32)|(d<<24)|(s<<16)|(f<<8)|(d XOR s XOR f)`;
the low byte of the result equals the XOR of the three payload bytes, so the
value passes the strict-mode checksum comparison of `decodePanasonic`
(lines 190-193), and the address / payload-byte extractions performed by the
decoder recover `m`, `d`, `s` and `f`. -/
theorem C1_encodePanasonic_spec (m d s f : Nat) (hm : m < 2 ^ 16)
    (hd : d < 2 ^ 8) (hs : s < 2 ^ 8) (hf : f < 2 ^ 8) :
    encodePanasonic m d s f =
        m * 2 ^ 32 + d * 2 ^ 24 + s * 2 ^ 16 + f * 2 ^ 8 + (d ^^^ s ^^^ f) ∧
    encodePanasonic m d s f &&& 0xFF = d ^^^ s ^^^ f ∧
    encodePanasonic m d s f &&& 0xFF =
      ((encodePanasonic m d s f >>> 24) ^^^ (encodePanasonic m d s f >>> 16) ^^^
        (encodePanasonic m d s f >>> 8)) &&& 0xFF ∧
    encodePanasonic m d s f >>> 32 = m ∧
    (encodePanasonic m d s f >>> 24) &&& 0xFF = d ∧
    (encodePanasonic m d s f >>> 16) &&& 0xFF = s ∧
    (encodePanasonic m d s f >>> 8) &&& 0xFF = f := by
  have hc : d ^^^ s ^^^ f < 2 ^ 8 :=
    Nat.xor_lt_two_pow (Nat.xor_lt_two_pow hd hs) hf
  have hsum := encodePanasonic_eq_sum m d s f hd hs hf
  have hmask : ∀ x : Nat, x &&& 0xFF = x % 2 ^ 8 := fun x =>
    Nat.and_pow_two_sub_one_eq_mod x 8
  have hshift : ∀ (x k : Nat), x >>> k = x / 2 ^ k := fun x k =>
    Nat.shiftRight_eq_div_pow x k
  have h24 : (encodePanasonic m d s f >>> 24) &&& 0xFF = d := by
    rw [hmask, hshift, hsum]; omega
  have h16 : (encodePanasonic m d s f >>> 16) &&& 0xFF = s := by
    rw [hmask, hshift, hsum]; omega
  have h8 : (encodePanasonic m d s f >>> 8) &&& 0xFF = f := by
    rw [hmask, hshift, hsum]; omega
  have hlow : encodePanasonic m d s f &&& 0xFF = d ^^^ s ^^^ f := by
    rw [hmask, hsum]; omega
  refine ⟨hsum, hlow, ?_, ?_, h24, h16, h8⟩
  · rw [Nat.and_xor_distrib_right, Nat.and_xor_distrib_right, h24, h16, h8,
      hlow]
  · rw [hshift, hsum]; omega

/-- Witness for C1 at manufacturer `0x4004`, device `1`, subdevice `2`,
function `3` (checksum `0x00`). -/
theorem C1_encodePanasonic_spec_witness :
    (0x4004 : Nat) < 2 ^ 16 ∧ (1 : Nat) < 2 ^ 8 ∧ (2 : Nat) < 2 ^ 8 ∧
    (3 : Nat) < 2 ^ 8 ∧ encodePanasonic 0x4004 1 2 3 >>> 32 = 0x4004 := by
  refine ⟨by decide, by decide, by decide, by decide, ?_⟩
  exact (C1_encodePanasonic_spec 0x4004 1 2 3 (by decide) (by decide)
    (by decide) (by decide)).2.2.2.1

/-- C2: for every raw timing sequence whose structural, header, data and
footer stages all pass (`panasonicStages` yields the extracted word), the
non-strict decode succeeds — the manufacturer and checksum checks are
skipped — while the strict decode returns false whenever the top 32 bits
differ from the expected manufacturer or the low checksum byte differs from
the XOR of the three payload bytes. -/
theorem C2_decodePanasonic_strict_vs_lenient (rawbuf : List Nat)
    (results : DecodeResults) (nbits manufacturer data : Nat)
    (h : panasonicStages rawbuf nbits = some data) :
    (decodePanasonic rawbuf results nbits false manufacturer).1 = true ∧
    ((data >>> 32 ≠ manufacturer ∨
        data &&& 0xFF ≠
          ((data >>> 24) ^^^ (data >>> 16) ^^^ (data >>> 8)) &&& 0xFF) →
      (decodePanasonic rawbuf results nbits true manufacturer).1 = false) := by
  rw [panasonicStages_eq] at h
  obtain ⟨h1, h⟩ := ite_none_eq_some h
  obtain ⟨h2, h⟩ := ite_none_eq_some h
  obtain ⟨h3, h⟩ := ite_none_eq_some h
  obtain ⟨h4, h⟩ := ite_none_eq_some h
  obtain ⟨h5, h⟩ := ite_none_eq_some h
  obtain ⟨h6, h⟩ := ite_none_eq_some h
  have hdata := Option.some.inj h
  subst hdata
  constructor
  · rw [decodePanasonic_eq, if_neg h1, if_neg (by simp), if_neg h2, if_neg h3,
      if_neg h4, if_neg h5, if_neg h6, if_neg (by simp), if_neg (by simp)]
  · intro hbad
    rw [decodePanasonic_eq, if_neg h1]
    by_cases hn : nbits = kPanasonicBits
    · rw [if_neg (by simp [hn]), if_neg h2, if_neg h3, if_neg h4, if_neg h5,
        if_neg h6]
      by_cases haddr : (panaDataRes rawbuf nbits).data >>> 32 = manufacturer
      · rw [if_neg (by simp [haddr])]
        rcases hbad with hb | hb
        · exact absurd haddr hb
        · rw [if_pos ⟨rfl, hb⟩]
      · rw [if_pos ⟨rfl, haddr⟩]
    · rw [if_pos ⟨rfl, hn⟩]

set_option maxHeartbeats 2000000 in
/-- C3: whenever `decodePanasonic` returns false, the output fields of the
result record are left exactly as they were before the call; they are
assigned only on the success path. -/
theorem C3_decodePanasonic_failure_preserves_results (rawbuf : List Nat)
    (results : DecodeResults) (nbits : Nat) (strict : Bool) (manufacturer : Nat)
    (h : (decodePanasonic rawbuf results nbits strict manufacturer).1 = false) :
    (decodePanasonic rawbuf results nbits strict manufacturer).2 = results := by
  rw [decodePanasonic_eq] at h ⊢
  split_ifs at h ⊢ <;> rfl

/-- Perfect pulse train for a given word: one mark of 216 raw ticks
(432 microseconds) per bit, a space of 648 raw ticks for a one and 216 for
a zero, most significant bit first. -/
def panasonicTestPulses (data nbits : Nat) : List Nat :=
  (List.range nbits).flatMap fun i =>
    [216, if (data >>> (nbits - 1 - i)) % 2 = 1 then 648 else 216]

/-- Perfect capture of the word `0x400401020300` (manufacturer `0x4004`,
device `1`, subdevice `2`, function `3`, checksum `0`): leading gap entry,
header mark and space, 48 data bit pairs, footer mark. -/
def panasonicTestBuf : List Nat :=
  0 :: 1728 :: 864 :: (panasonicTestPulses 0x400401020300 48 ++ [216])

/-- Witness for C2: the perfect capture passes all stages; with expected
manufacturer `0x1234` the lenient decode succeeds and the strict decode
fails. -/
theorem C2_decodePanasonic_strict_vs_lenient_witness :
    panasonicStages panasonicTestBuf 48 = some 0x400401020300 ∧
    (decodePanasonic panasonicTestBuf ⟨0, 0, 0, 0, 0⟩ 48 false 0x1234).1 =
      true ∧
    (decodePanasonic panasonicTestBuf ⟨0, 0, 0, 0, 0⟩ 48 true 0x1234).1 =
      false := by
  have hstages : panasonicStages panasonicTestBuf 48 = some 0x400401020300 :=
    by decide
  have hmain := C2_decodePanasonic_strict_vs_lenient panasonicTestBuf
    ⟨0, 0, 0, 0, 0⟩ 48 0x1234 0x400401020300 hstages
  exact ⟨hstages, hmain.1, hmain.2 (by decide)⟩

/-- Witness for C3: an empty capture fails the structural check and the
result record is untouched. -/
theorem C3_decodePanasonic_failure_preserves_results_witness :
    (decodePanasonic [] ⟨0, 0, 0, 0, 0⟩ 48 true 0).1 = false ∧
    (decodePanasonic [] ⟨0, 0, 0, 0, 0⟩ 48 true 0).2 = ⟨0, 0, 0, 0, 0⟩ :=
  ⟨by decide,
   C3_decodePanasonic_failure_preserves_results [] ⟨0, 0, 0, 0, 0⟩ 48 true 0
     (by decide)⟩

/-! ## List helper lemmas -/

theorem getD_set_self {α : Type} (l : List α) (i : Nat) (v d : α)
    (h : i < l.length) : (l.set i v).getD i d = v := by
  induction l generalizing i with
  | nil => simp at h
  | cons a t ih =>
    cases i with
    | zero => rfl
    | succ n => simpa using ih n (by simpa using h)

theorem getD_set_ne {α : Type} (l : List α) (i j : Nat) (v d : α)
    (h : i ≠ j) : (l.set i v).getD j d = l.getD j d := by
  induction l generalizing i j with
  | nil => rfl
  | cons a t ih =>
    cases i with
    | zero =>
      cases j with
      | zero => exact absurd rfl h
      | succ n => rfl
    | succ m =>
      cases j with
      | zero => rfl
      | succ n => simpa using ih m n (by omega)

theorem take_set_of_le {α : Type} (l : List α) (i n : Nat) (v : α)
    (h : n ≤ i) : (l.set i v).take n = l.take n := by
  induction l generalizing i n with
  | nil => rfl
  | cons a t ih =>
    cases i with
    | zero =>
      have : n = 0 := Nat.le_zero.mp h
      simp [this]
    | succ m =>
      cases n with
      | zero => rfl
      | succ k => simpa using ih m k (by omega)

/-! ## Air-conditioner state model (`ir_Panasonic.cpp` lines 246-484)

Constants below that carry a `Modelled from the spec:` comment are declared
in `ir_Panasonic.h`, which is not under `src/`. -/

/-- Modelled from the spec: the fixed length of the A/C state buffer
(`kPanasonicAcStateLength`, `ir_Panasonic.h`): 27 bytes (216 bits, two
sections with signature bytes at offsets 0-1 and 8-9 and the checksum in
the final byte). -/
def kPanasonicAcStateLength : Nat := 27

/-- Modelled from the spec: the protocol-defined initial seed of the
checksum sum (`kPanasonicAcChecksumInit`, `ir_Panasonic.h`). -/
def kPanasonicAcChecksumInit : Nat := 0xF4

/-- Modelled from the spec: operating-mode nibble values
(`kPanasonicAcAuto` and friends, `ir_Panasonic.h`). -/
def kPanasonicAcAuto : Nat := 0

/-- Modelled from the spec: the dry operating mode (`ir_Panasonic.h`). -/
def kPanasonicAcDry : Nat := 2

/-- Modelled from the spec: the cool operating mode (`ir_Panasonic.h`). -/
def kPanasonicAcCool : Nat := 3

/-- Modelled from the spec: the heat operating mode (`ir_Panasonic.h`). -/
def kPanasonicAcHeat : Nat := 4

/-- Modelled from the spec: the fan-only operating mode
(`ir_Panasonic.h`). -/
def kPanasonicAcFan : Nat := 6

/-- Modelled from the spec: the fixed protocol-defined temperature used in
fan mode (`kPanasonicAcFanModeTemp`, `ir_Panasonic.h`). -/
def kPanasonicAcFanModeTemp : Nat := 27

/-- Modelled from the spec: lowest supported temperature
(`kPanasonicAcMinTemp`, `ir_Panasonic.h`). -/
def kPanasonicAcMinTemp : Nat := 16

/-- Modelled from the spec: highest supported temperature
(`kPanasonicAcMaxTemp`, `ir_Panasonic.h`). -/
def kPanasonicAcMaxTemp : Nat := 30

/-- Modelled from the spec: the quiet status bit in byte 21
(`kPanasonicAcQuiet`, `ir_Panasonic.h`). -/
def kPanasonicAcQuiet : Nat := 0x01

/-- Modelled from the spec: the powerful status bit in byte 21
(`kPanasonicAcPowerful`, `ir_Panasonic.h`). -/
def kPanasonicAcPowerful : Nat := 0x20

/-- Modelled from the spec: horizontal-swing direction byte values
(`kPanasonicAcSwingH...`, `ir_Panasonic.h`). -/
def kPanasonicAcSwingHAuto : Nat := 0x0D

/-- Modelled from the spec: horizontal swing pointing to the middle
(`ir_Panasonic.h`). -/
def kPanasonicAcSwingHMiddle : Nat := 0x06

/-- Modelled from the spec: horizontal swing fully left
(`ir_Panasonic.h`). -/
def kPanasonicAcSwingHFullLeft : Nat := 0x09

/-- Modelled from the spec: horizontal swing left (`ir_Panasonic.h`). -/
def kPanasonicAcSwingHLeft : Nat := 0x0A

/-- Modelled from the spec: horizontal swing right (`ir_Panasonic.h`). -/
def kPanasonicAcSwingHRight : Nat := 0x0B

/-- Modelled from the spec: horizontal swing fully right
(`ir_Panasonic.h`). -/
def kPanasonicAcSwingHFullRight : Nat := 0x0C

/-- Modelled from the spec: the `panasonic_ac_remote_model_t` enumeration
(`IRsend.h`): the unknown variant and the four known product families. -/
def kPanasonicUnknown : Nat := 0

/-- Modelled from the spec: the JKE variant tag. -/
def kPanasonicJke : Nat := 1

/-- Modelled from the spec: the LKE variant tag. -/
def kPanasonicLke : Nat := 2

/-- Modelled from the spec: the DKE variant tag. -/
def kPanasonicDke : Nat := 3

/-- Modelled from the spec: the NKE variant tag. -/
def kPanasonicNke : Nat := 4

/-- Modelled from the spec: the canonical known-good state template
(`kPanasonicKnownGoodState`, `ir_Panasonic.h`); all devices start from this
byte pattern, whose sections carry the `0x02 0x20` signatures. -/
def kPanasonicKnownGoodState : List Nat :=
  [0x02, 0x20, 0xE0, 0x04, 0x00, 0x00, 0x00, 0x06,
   0x02, 0x20, 0xE0, 0x04, 0x00, 0x48, 0x3C, 0x80,
   0xAF, 0x00, 0x00, 0x06, 0x60, 0x00, 0x00, 0x80,
   0x00, 0x06, 0x83]

/-- Modelled from the spec: byte-wise sum with a seed, truncated to a byte
at each step (`sumBytes` in `IRutils.cpp`, not under `src/`): the checksum
is the sum of the bytes with a protocol-defined initial seed, modulo 256. -/
def sumBytes (state : List Nat) (length init : Nat) : Nat :=
  (state.take length).foldl (fun checksum b => (checksum + b) % 256) init

/-- The `IRPanasonicAc` object state: the 27-byte configuration buffer and
the two cached scalars (remembered temperature, remembered horizontal-swing
direction). -/
structure AcState where
  remote_state : List Nat
  _temp : Nat
  _swingh : Nat
  deriving Repr, DecidableEq

/-- Embedding of `IRPanasonicAc::stateReset` (lines 250-255). -/
def stateReset : AcState :=
  ⟨kPanasonicKnownGoodState, 25, kPanasonicAcSwingHMiddle⟩

/-- Embedding of `IRPanasonicAc::validChecksum` (lines 267-272). -/
def validChecksum (state : List Nat) (length : Nat) : Bool :=
  if length < 2 then false
  else decide (state.getD (length - 1) 0 =
    sumBytes state (length - 1) kPanasonicAcChecksumInit)

/-- Embedding of `IRPanasonicAc::calcChecksum` (lines 274-277). -/
def calcChecksum (state : List Nat) (length : Nat) : Nat :=
  sumBytes state (length - 1) kPanasonicAcChecksumInit

/-- Embedding of `IRPanasonicAc::fixChecksum` (lines 279-281). -/
def fixChecksum (ac : AcState) (length : Nat) : AcState :=
  {ac with remote_state :=
    (ac.remote_state.set (length - 1) (calcChecksum ac.remote_state length))}

/-- Embedding of `IRPanasonicAc::getRaw` (lines 332-335): recomputes and
writes the checksum byte, then returns the buffer. -/
def getRaw (ac : AcState) : List Nat :=
  (fixChecksum ac kPanasonicAcStateLength).remote_state

/-- Embedding of `IRPanasonicAc::getModel` (lines 320-330): pure function of
the buffer bytes, checked in the source's fixed precedence order. -/
def getModel (ac : AcState) : Nat :=
  if ac.remote_state.getD 17 0 = 0x00 ∧
      ac.remote_state.getD 23 0 &&& 0x80 ≠ 0 then kPanasonicJke
  else if ac.remote_state.getD 17 0 = 0x06 ∧
      ac.remote_state.getD 13 0 &&& 0x0F = 0x02 then kPanasonicLke
  else if ac.remote_state.getD 23 0 = 0x01 ∧
      ac.remote_state.getD 25 0 = 0x06 then kPanasonicDke
  else if ac.remote_state.getD 17 0 = 0x06 then kPanasonicNke
  else kPanasonicUnknown

/-- Embedding of `IRPanasonicAc::getSwingHorizontal` (lines 419-421). -/
def getSwingHorizontal (ac : AcState) : Nat :=
  ac.remote_state.getD 17 0

/-- Embedding of `IRPanasonicAc::setSwingH` (lines 423-448): validates the
direction, caches it unconditionally, then writes it to byte 17 only for
the variants that support it (normalising to the middle position for NKE
and LKE, and leaving the buffer untouched otherwise). -/
def setSwingH (ac : AcState) (desired_direction : Nat) : AcState :=
  if desired_direction = kPanasonicAcSwingHAuto ∨
      desired_direction = kPanasonicAcSwingHMiddle ∨
      desired_direction = kPanasonicAcSwingHFullLeft ∨
      desired_direction = kPanasonicAcSwingHLeft ∨
      desired_direction = kPanasonicAcSwingHRight ∨
      desired_direction = kPanasonicAcSwingHFullRight then
    let ac1 : AcState := {ac with _swingh := desired_direction}
    if getModel ac1 = kPanasonicDke then
      {ac1 with remote_state := ac1.remote_state.set 17 desired_direction}
    else if getModel ac1 = kPanasonicNke ∨ getModel ac1 = kPanasonicLke then
      {ac1 with remote_state :=
        (ac1.remote_state.set 17 kPanasonicAcSwingHMiddle)}
    else ac1
  else ac

/-- Embedding of `IRPanasonicAc::setModel` (lines 283-318): a no-op for
unrecognised variants; otherwise clears the variant bytes and rewrites them
for the requested variant, re-invoking `setSwingH` for DKE. -/
def setModel (ac : AcState) (model : Nat) : AcState :=
  if model = kPanasonicDke ∨ model = kPanasonicJke ∨ model = kPanasonicLke ∨
      model = kPanasonicNke then
    let s0 := ac.remote_state
    let s1 := s0.set 13 (s0.getD 13 0 &&& 0xF0)
    let s2 := s1.set 17 0x00
    let s3 := s2.set 23 0x81
    let s4 := s3.set 25 0x00
    if model = kPanasonicLke then
      let s5 := s4.set 13 (s4.getD 13 0 ||| 0x02)
      {ac with remote_state := s5.set 17 0x06}
    else if model = kPanasonicDke then
      let s5 := s4.set 23 0x01
      let s6 := s5.set 25 0x06
      setSwingH {ac with remote_state := s6} ac._swingh
    else if model = kPanasonicNke then
      {ac with remote_state := s4.set 17 0x06}
    else {ac with remote_state := s4}
  else ac

/-- Embedding of `IRPanasonicAc::getTemp` (lines 387-389). -/
def getTemp (ac : AcState) : Nat :=
  ac.remote_state.getD 14 0 >>> 1

/-- Embedding of `IRPanasonicAc::setTemp` (lines 397-403): clamps the
temperature into the supported range, stores it doubled in byte 14, and
optionally updates the remembered value. -/
def setTemp (ac : AcState) (celsius : Nat) (remember : Bool) : AcState :=
  let temperature := max celsius kPanasonicAcMinTemp
  let temperature := min temperature kPanasonicAcMaxTemp
  let ac1 : AcState :=
    {ac with remote_state := ac.remote_state.set 14 (temperature <<< 1)}
  if remember then {ac1 with _temp := temperature} else ac1

/-- Embedding of `IRPanasonicAc::getMode` (lines 362-364). -/
def getMode (ac : AcState) : Nat :=
  ac.remote_state.getD 13 0 >>> 4

/-- Embedding of `IRPanasonicAc::setMode` (lines 366-385): fan mode forces
the fixed fan-mode temperature without remembering it; the other recognised
modes restore the remembered temperature; anything else falls back to auto
without touching the temperature. -/
def setMode (ac : AcState) (desired : Nat) : AcState :=
  let step : AcState × Nat :=
    if desired = kPanasonicAcFan then
      (setTemp ac kPanasonicAcFanModeTemp false, desired)
    else if desired = kPanasonicAcAuto ∨ desired = kPanasonicAcCool ∨
        desired = kPanasonicAcHeat ∨ desired = kPanasonicAcDry then
      (setTemp ac ac._temp true, desired)
    else (ac, kPanasonicAcAuto)
  let ac1 := step.1
  {ac1 with remote_state := (ac1.remote_state.set 13
    ((ac1.remote_state.getD 13 0 &&& 0x0F) ||| step.2 <<< 4))}

mutual

/-- Embedding of `IRPanasonicAc::setQuiet` (lines 464-471): setting quiet
first clears the mutually exclusive powerful bit. -/
def setQuiet (ac : AcState) : Bool → AcState
  | true =>
    let ac1 := setPowerful ac false
    {ac1 with remote_state := (ac1.remote_state.set 21
      (ac1.remote_state.getD 21 0 ||| kPanasonicAcQuiet))}
  | false =>
    {ac with remote_state := (ac.remote_state.set 21
      (ac.remote_state.getD 21 0 &&& (0xFF ^^^ kPanasonicAcQuiet)))}
termination_by b => if b then 1 else 0

/-- Embedding of `IRPanasonicAc::setPowerful` (lines 477-484): setting
powerful first clears the mutually exclusive quiet bit. -/
def setPowerful (ac : AcState) : Bool → AcState
  | true =>
    let ac1 := setQuiet ac false
    {ac1 with remote_state := (ac1.remote_state.set 21
      (ac1.remote_state.getD 21 0 ||| kPanasonicAcPowerful))}
  | false =>
    {ac with remote_state := (ac.remote_state.set 21
      (ac.remote_state.getD 21 0 &&& (0xFF ^^^ kPanasonicAcPowerful)))}
termination_by b => if b then 1 else 0

end

/-- Embedding of `IRPanasonicAc::getQuiet` (lines 460-462). -/
def getQuiet (ac : AcState) : Bool :=
  decide (ac.remote_state.getD 21 0 &&& kPanasonicAcQuiet ≠ 0)

/-- Embedding of `IRPanasonicAc::getPowerful` (lines 473-475). -/
def getPowerful (ac : AcState) : Bool :=
  decide (ac.remote_state.getD 21 0 &&& kPanasonicAcPowerful ≠ 0)

/-! ## Bit-level helper lemmas for the status byte -/

theorem or_ne_zero_right (y b : Nat) (hb : b ≠ 0) : y ||| b ≠ 0 := by
  obtain ⟨i, hi⟩ := Nat.ne_zero_implies_bit_true hb
  intro hz
  have hbit : (y ||| b).testBit i = true := by simp [Nat.testBit_or, hi]
  rw [hz] at hbit
  simp at hbit

theorem or_and_self_ne_zero (y b : Nat) (hb : b ≠ 0) :
    (y ||| b) &&& b ≠ 0 := by
  rw [Nat.and_distrib_right, Nat.and_self]
  exact or_ne_zero_right _ _ hb

theorem and_or_and_zero (y m a b : Nat) (h1 : m &&& b = 0) (h2 : a &&& b = 0) :
    ((y &&& m) ||| a) &&& b = 0 := by
  rw [Nat.and_distrib_right, Nat.and_assoc, h1, Nat.and_zero, h2]
  rfl

/-- C4: for every A/C state buffer, the buffer returned by `getRaw`
satisfies `validChecksum`: its last byte equals the seeded byte-wise sum of
all preceding bytes modulo 256. -/
theorem C4_getRaw_validChecksum (ac : AcState)
    (h : ac.remote_state.length = kPanasonicAcStateLength) :
    validChecksum (getRaw ac) kPanasonicAcStateLength = true := by
  have h27 : ac.remote_state.length = 27 := h
  unfold validChecksum getRaw fixChecksum calcChecksum kPanasonicAcStateLength
  rw [if_neg (by omega)]
  rw [getD_set_self _ _ _ _ (by omega)]
  unfold sumBytes
  rw [take_set_of_le _ _ _ _ (by omega)]
  simp [sumBytes]

/-- Witness for C4 at the freshly reset canonical template. -/
theorem C4_getRaw_validChecksum_witness :
    stateReset.remote_state.length = kPanasonicAcStateLength ∧
    validChecksum (getRaw stateReset) kPanasonicAcStateLength = true :=
  ⟨by decide, C4_getRaw_validChecksum stateReset (by decide)⟩

/-- C5: the quiet and powerful flags are mutually exclusive: setting
powerful then quiet leaves exactly the quiet bit set; setting quiet then
powerful leaves exactly the powerful bit set. -/
theorem C5_quiet_powerful_mutual_exclusion (ac : AcState)
    (h : ac.remote_state.length = kPanasonicAcStateLength) :
    getQuiet (setQuiet (setPowerful ac true) true) = true ∧
    getPowerful (setQuiet (setPowerful ac true) true) = false ∧
    getPowerful (setPowerful (setQuiet ac true) true) = true ∧
    getQuiet (setPowerful (setQuiet ac true) true) = false := by
  have h27 : ac.remote_state.length = 27 := h
  refine ⟨?_, ?_, ?_, ?_⟩ <;>
    simp [setQuiet, setPowerful, getQuiet, getPowerful, kPanasonicAcQuiet,
      kPanasonicAcPowerful, getD_set_self, getD_set_ne, h27]
  · exact and_or_and_zero _ _ _ _ (by decide) (by decide)
  · exact or_and_self_ne_zero _ _ (by decide)

/-- Witness for C5 at the freshly reset canonical template. -/
theorem C5_quiet_powerful_mutual_exclusion_witness :
    stateReset.remote_state.length = kPanasonicAcStateLength ∧
    getQuiet (setQuiet (setPowerful stateReset true) true) = true :=
  ⟨by decide, (C5_quiet_powerful_mutual_exclusion stateReset (by decide)).1⟩

/-- C6: after remembering a temperature with `setTemp`, switching to fan
mode writes the fixed fan-mode temperature without touching the remembered
value, and switching afterwards to any recognised non-fan mode writes the
remembered temperature back, so `getTemp` returns it. -/
theorem C6_fan_mode_keeps_remembered_temp (ac : AcState) (t m : Nat)
    (h : ac.remote_state.length = kPanasonicAcStateLength)
    (hm : m = kPanasonicAcAuto ∨ m = kPanasonicAcCool ∨
      m = kPanasonicAcHeat ∨ m = kPanasonicAcDry) :
    (setMode (setTemp ac t true) kPanasonicAcFan)._temp =
      (setTemp ac t true)._temp ∧
    getTemp (setMode (setTemp ac t true) kPanasonicAcFan) =
      kPanasonicAcFanModeTemp ∧
    getTemp (setMode (setMode (setTemp ac t true) kPanasonicAcFan) m) =
      (setTemp ac t true)._temp := by
  have h27 : ac.remote_state.length = 27 := h
  rcases hm with rfl | rfl | rfl | rfl <;>
    refine ⟨?_, ?_, ?_⟩ <;>
      simp [setMode, setTemp, getTemp, kPanasonicAcFan, kPanasonicAcAuto,
        kPanasonicAcCool, kPanasonicAcHeat, kPanasonicAcDry,
        kPanasonicAcFanModeTemp, kPanasonicAcMinTemp, kPanasonicAcMaxTemp,
        getD_set_self, getD_set_ne, h27, Nat.shiftLeft_eq,
        Nat.shiftRight_eq_div_pow]

/-- Witness for C6 at the freshly reset template, temperature 20, switching
fan then cool. -/
theorem C6_fan_mode_keeps_remembered_temp_witness :
    stateReset.remote_state.length = kPanasonicAcStateLength ∧
    getTemp (setMode (setMode (setTemp stateReset 20 true) kPanasonicAcFan)
      kPanasonicAcCool) = (setTemp stateReset 20 true)._temp :=
  ⟨by decide,
   (C6_fan_mode_keeps_remembered_temp stateReset 20 kPanasonicAcCool
     (by decide) (by simp [kPanasonicAcCool])).2.2⟩

/-- C7: on a state classified as JKE or unknown, `setSwingH` with a valid
direction leaves the buffer unchanged but caches the direction, and a
subsequent `setModel` to DKE writes the cached direction into byte 17, so
`getSwingHorizontal` returns it. -/
theorem C7_setSwingH_cached_for_unsupported (ac : AcState) (v : Nat)
    (h : ac.remote_state.length = kPanasonicAcStateLength)
    (hmodel : getModel ac = kPanasonicJke ∨ getModel ac = kPanasonicUnknown)
    (hv : v = kPanasonicAcSwingHAuto ∨ v = kPanasonicAcSwingHMiddle ∨
      v = kPanasonicAcSwingHFullLeft ∨ v = kPanasonicAcSwingHLeft ∨
      v = kPanasonicAcSwingHRight ∨ v = kPanasonicAcSwingHFullRight) :
    (setSwingH ac v).remote_state = ac.remote_state ∧
    (setSwingH ac v)._swingh = v ∧
    getSwingHorizontal (setModel (setSwingH ac v) kPanasonicDke) = v := by
  have h27 : ac.remote_state.length = 27 := h
  have hg : getModel {ac with _swingh := v} = getModel ac := rfl
  have hs : setSwingH ac v = {ac with _swingh := v} := by
    unfold setSwingH
    rw [if_pos hv]
    rcases hmodel with hm | hm <;>
      rw [if_neg (by rw [hg, hm]; decide), if_neg (by rw [hg, hm]; decide)]
  refine ⟨by rw [hs], by rw [hs], ?_⟩
  rw [hs]
  rcases hv with rfl | rfl | rfl | rfl | rfl | rfl <;>
    simp [setModel, setSwingH, getModel, getSwingHorizontal, kPanasonicDke,
      kPanasonicJke, kPanasonicLke, kPanasonicNke, kPanasonicUnknown,
      kPanasonicAcSwingHAuto, kPanasonicAcSwingHMiddle,
      kPanasonicAcSwingHFullLeft, kPanasonicAcSwingHLeft,
      kPanasonicAcSwingHRight, kPanasonicAcSwingHFullRight,
      getD_set_self, getD_set_ne, h27, Nat.and_distrib_right, Nat.and_assoc]

/-- Witness for C7 at the freshly reset template (a JKE state) with the
left direction. -/
theorem C7_setSwingH_cached_for_unsupported_witness :
    getModel stateReset = kPanasonicJke ∧
    getSwingHorizontal (setModel (setSwingH stateReset kPanasonicAcSwingHLeft)
      kPanasonicDke) = kPanasonicAcSwingHLeft := by
  refine ⟨by decide, ?_⟩
  exact (C7_setSwingH_cached_for_unsupported stateReset kPanasonicAcSwingHLeft
    (by decide) (Or.inl (by decide)) (by simp [kPanasonicAcSwingHLeft])).2.2

/-- C8: for each of the four known variants, `setModel` followed by
`getModel` returns that variant, for every starting buffer and cached swing
value; for any other argument `setModel` leaves the state unchanged. -/
theorem C8_setModel_getModel_roundtrip (ac : AcState) (model : Nat)
    (h : ac.remote_state.length = kPanasonicAcStateLength) :
    ((model = kPanasonicJke ∨ model = kPanasonicLke ∨
        model = kPanasonicDke ∨ model = kPanasonicNke) →
      getModel (setModel ac model) = model) ∧
    (¬ (model = kPanasonicJke ∨ model = kPanasonicLke ∨
        model = kPanasonicDke ∨ model = kPanasonicNke) →
      setModel ac model = ac) := by
  have h27 : ac.remote_state.length = 27 := h
  constructor
  · intro hm
    rcases hm with rfl | rfl | rfl | rfl
    · simp [setModel, getModel, kPanasonicJke, kPanasonicLke, kPanasonicDke,
        kPanasonicNke, getD_set_self, getD_set_ne, h27]
    · simp [setModel, getModel, kPanasonicJke, kPanasonicLke, kPanasonicDke,
        kPanasonicNke, getD_set_self, getD_set_ne, h27,
        Nat.and_distrib_right, Nat.and_assoc,
        (by decide : (240 : Nat) &&& 15 = 0), (by decide : (2 : Nat) &&& 15 = 2)]
    · generalize hsw : ac._swingh = w
      by_cases hw : w = kPanasonicAcSwingHAuto ∨ w = kPanasonicAcSwingHMiddle ∨
        w = kPanasonicAcSwingHFullLeft ∨ w = kPanasonicAcSwingHLeft ∨
        w = kPanasonicAcSwingHRight ∨ w = kPanasonicAcSwingHFullRight
      · rcases hw with rfl | rfl | rfl | rfl | rfl | rfl <;>
          simp [setModel, setSwingH, getModel, kPanasonicJke, kPanasonicLke,
            kPanasonicDke, kPanasonicNke, kPanasonicAcSwingHAuto,
            kPanasonicAcSwingHMiddle, kPanasonicAcSwingHFullLeft,
            kPanasonicAcSwingHLeft, kPanasonicAcSwingHRight,
            kPanasonicAcSwingHFullRight, hsw, getD_set_self, getD_set_ne, h27,
            Nat.and_distrib_right, Nat.and_assoc,
            (by decide : (240 : Nat) &&& 15 = 0),
            (by decide : (2 : Nat) &&& 15 = 2)]
      · simp [setModel, setSwingH, getModel, kPanasonicJke, kPanasonicLke,
          kPanasonicDke, kPanasonicNke, hsw, hw, getD_set_self, getD_set_ne,
          h27, Nat.and_distrib_right, Nat.and_assoc,
          (by decide : (240 : Nat) &&& 15 = 0),
          (by decide : (2 : Nat) &&& 15 = 2)]
    · simp [setModel, getModel, kPanasonicJke, kPanasonicLke, kPanasonicDke,
        kPanasonicNke, getD_set_self, getD_set_ne, h27,
        Nat.and_distrib_right, Nat.and_assoc,
        (by decide : (240 : Nat) &&& 15 = 0), (by decide : (2 : Nat) &&& 15 = 2)]
  · intro hm
    unfold setModel
    rw [if_neg]
    intro hc
    exact hm (by tauto)

/-! ## Framed A/C decoder (`ir_Panasonic.cpp` lines 629-731)

The decoder is embedded together with the ordered list of raw-buffer
indices it reads, so that buffer-safety properties can be stated about it.
Each byte-extraction loop is driven by the number of bytes still allowed
(`iEnd - i` in the source's terms), which makes the recursion structural. -/

/-- One byte-extraction loop of `decodePanasonicAC` (lines 665-679 and
696-710): keeps reading 8-bit groups while at least 16 raw samples remain
and the byte index is below its bound, storing each byte into the state
buffer.  Returns `none` on a timing failure, otherwise the final offset and
byte index; the second and third components are the state buffer and the
read trace. -/
def acDataLoop (rawbuf : List Nat) (m_tick s_tick : Nat) (state : List Nat)
    (offset i : Nat) :
    Nat → (Option (Nat × Nat)) × List Nat × List Nat
  | 0 => (some (offset, i), state, [])
  | r + 1 =>
    if offset ≤ rawbuf.length - 16 then
      let dr := matchData rawbuf offset 8
        (kPanasonicBitMarkTicks * m_tick) (kPanasonicOneSpaceTicks * s_tick)
        (kPanasonicBitMarkTicks * m_tick) (kPanasonicZeroSpaceTicks * s_tick)
        kPanasonicAcTolerance kPanasonicAcExcess false
      if dr.1.success then
        let next := acDataLoop rawbuf m_tick s_tick (state.set i dr.1.data)
          (offset + dr.1.used) (i + 1) r
        (next.1, next.2.1, dr.2 ++ next.2.2)
      else (none, state, dr.2)
    else (some (offset, i), state, [])

/-- Embedding of `IRrecv::decodePanasonicAC` (lines 629-731).  Returns the
success flag, the (possibly partially written) state buffer, and the ordered
list of raw-buffer indices read during the decode. -/
def decodePanasonicAC (rawbuf state0 : List Nat) (nbits : Nat)
    (strict : Bool) : Bool × List Nat × List Nat :=
  if nbits % 8 ≠ 0 then (false, state0, [])
  else if strict ∧ nbits ≠ kPanasonicAcBits then (false, state0, [])
  else if rawbuf.length < 1 * (2 * nbits + kHeader + kFooter) - 1 then
    (false, state0, [])
  else if ¬ matchMark (rawbuf.getD kStartOffset 0) kPanasonicHdrMark
      kPanasonicAcTolerance kPanasonicAcExcess then
    (false, state0, [kStartOffset])
  else
    let m_tick := rawbuf.getD kStartOffset 0 * kRawTick /
      kPanasonicHdrMarkTicks
    if ¬ matchSpace (rawbuf.getD (kStartOffset + 1) 0) kPanasonicHdrSpace
        kPanasonicAcTolerance kPanasonicAcExcess then
      (false, state0, [kStartOffset, kStartOffset + 1])
    else
      let s_tick := rawbuf.getD (kStartOffset + 1) 0 * kRawTick /
        kPanasonicHdrSpaceTicks
      let trace0 : List Nat := [kStartOffset, kStartOffset + 1]
      match acDataLoop rawbuf m_tick s_tick state0 (kStartOffset + 2)
        0 kPanasonicAcSection1Length with
      | (none, st1, tr1) => (false, st1, trace0 ++ tr1)
      | (some (o1, i1), st1, tr1) =>
        if ¬ matchMark (rawbuf.getD o1 0) (kPanasonicBitMarkTicks * m_tick)
            kPanasonicAcTolerance kPanasonicAcExcess then
          (false, st1, trace0 ++ tr1 ++ [o1])
        else if ¬ matchSpace (rawbuf.getD (o1 + 1) 0) kPanasonicAcSectionGap
            kPanasonicAcTolerance kPanasonicAcExcess then
          (false, st1, trace0 ++ tr1 ++ [o1, o1 + 1])
        else if ¬ matchMark (rawbuf.getD (o1 + 2) 0)
            (kPanasonicHdrMarkTicks * m_tick) kPanasonicAcTolerance
            kPanasonicAcExcess then
          (false, st1, trace0 ++ tr1 ++ [o1, o1 + 1, o1 + 2])
        else if ¬ matchSpace (rawbuf.getD (o1 + 3) 0)
            (kPanasonicHdrSpaceTicks * s_tick) kPanasonicAcTolerance
            kPanasonicAcExcess then
          (false, st1, trace0 ++ tr1 ++ [o1, o1 + 1, o1 + 2, o1 + 3])
        else
          match acDataLoop rawbuf m_tick s_tick st1 (o1 + 4) i1
            (nbits / 8 - i1) with
          | (none, st2, tr2) =>
            (false, st2, trace0 ++ tr1 ++ [o1, o1 + 1, o1 + 2, o1 + 3] ++ tr2)
          | (some (o2, _), st2, tr2) =>
            let trace1 := trace0 ++ tr1 ++ [o1, o1 + 1, o1 + 2, o1 + 3] ++ tr2
            if ¬ matchMark (rawbuf.getD o2 0)
                (kPanasonicBitMarkTicks * m_tick) kPanasonicAcTolerance
                kPanasonicAcExcess then
              (false, st2, trace1 ++ [o2])
            else if o2 + 1 ≤ rawbuf.length ∧
                ¬ matchAtLeast (rawbuf.getD (o2 + 1) 0) kPanasonicAcMessageGap
                  kTolerance then
              (false, st2, trace1 ++ [o2, o2 + 1])
            else
              let trace2 := trace1 ++ [o2] ++
                (if o2 + 1 ≤ rawbuf.length then [o2 + 1] else [])
              if strict ∧ (st2.getD 0 0 ≠ 0x02 ∨ st2.getD 1 0 ≠ 0x20 ∨
                  st2.getD 8 0 ≠ 0x02 ∨ st2.getD 9 0 ≠ 0x20) then
                (false, st2, trace2)
              else if strict ∧ ¬ validChecksum st2 (nbits / 8) then
                (false, st2, trace2)
              else (true, st2, trace2)

/-- C9: for every requested bit width that is not a multiple of 8,
`decodePanasonicAC` returns false immediately: the state buffer is
untouched and not a single raw timing sample is read. -/
theorem C9_acDecode_rejects_non_byte_widths (rawbuf state0 : List Nat)
    (nbits : Nat) (strict : Bool) (h : nbits % 8 ≠ 0) :
    decodePanasonicAC rawbuf state0 nbits strict = (false, state0, []) := by
  unfold decodePanasonicAC
  rw [if_pos h]

/-- Witness for C9 at bit width 7. -/
theorem C9_acDecode_rejects_non_byte_widths_witness :
    (7 : Nat) % 8 ≠ 0 ∧
    decodePanasonicAC [0, 1728, 864] (List.replicate 27 0) 7 true =
      (false, List.replicate 27 0, []) :=
  ⟨by decide,
   C9_acDecode_rejects_non_byte_widths [0, 1728, 864] (List.replicate 27 0) 7
     true (by decide)⟩

/-- A 136-sample capture of a 16-bit non-strict A/C message with perfect
timings: entry 0 is the leading gap, entries 1-2 the header, entries 3-130
eight all-zero data bytes, entry 131 the section footer mark, entry 132 the
section gap, entries 133-134 the second header, entry 135 the message footer
mark — and no trailing gap sample. -/
def acOobBuf : List Nat :=
  [0, 1728, 864] ++ List.replicate 128 216 ++ [216, 5000, 1728, 864, 216]

set_option maxRecDepth 10000 in
/-- C10 evaluation: on `acOobBuf` (raw length 136) the final message-gap
check of `decodePanasonicAC` reads index 136 — equal to `rawlen`, one past
the last valid sample — because its guard is `offset <= rawlen` instead of
`offset < rawlen`, and the decode then succeeds. -/
theorem C10_acDecode_reads_index_rawlen :
    acOobBuf.length = 136 ∧
    (decodePanasonicAC acOobBuf (List.replicate 27 0) 16 false).1 = true ∧
    136 ∈ (decodePanasonicAC acOobBuf (List.replicate 27 0) 16 false).2.2 := by
  refine ⟨by decide, by decide, by decide⟩

/-- Witness for C8: round trip to NKE from the reset template, and a no-op
for the unrecognised tag 9. -/
theorem C8_setModel_getModel_roundtrip_witness :
    getModel (setModel stateReset kPanasonicNke) = kPanasonicNke ∧
    setModel stateReset 9 = stateReset := by
  constructor
  · exact (C8_setModel_getModel_roundtrip stateReset kPanasonicNke
      (by decide)).1 (by simp [kPanasonicNke])
  · exact (C8_setModel_getModel_roundtrip stateReset 9 (by decide)).2
      (by decide)

end IRPanasonic
